import Mathlib

/-!
Shallow embedding of `obs-timecode-generator.py`: an OBS script that polls an
HTTP server for timecode text and renders it into a named text source.

The OBS host environment (source lookup, visibility, timers) is modelled as an
explicit `ObsWorld` parameter plus a trace of host calls (`HostCall`).  The
script's mutable dictionary `tcg_config` is modelled as the record `TcgConfig`,
and the separate `timer_states` dictionary as `TimerStates`.  Python's
`json.loads` is modelled as an abstract parse function `String → Except String
JsonValue`; the shapes a parse can return are the JSON value forms, and the
`.get` attribute lookup on the parsed value follows Python semantics (only a
dict has `.get`; any other value raises, landing in the `except` branch).
-/

namespace ObsTimecode

/-- A JSON value as produced by `json.loads`:  objects become dicts, arrays
become lists, strings/numbers/booleans/null become the corresponding Python
values. -/
inductive JsonValue where
  | null
  | bool (b : Bool)
  | num (n : Int)
  | str (s : String)
  | arr (elems : List JsonValue)
  | obj (fields : List (String × JsonValue))

/-- Python `str()` of a parsed JSON value, as applied by
`tcg_update_text_source` via `str(text_to_display)`.  Container reprs are
abbreviated (no claim evaluates them). -/
def pyStr : JsonValue → String
  | .null => "None"
  | .bool true => "True"
  | .bool false => "False"
  | .num n => toString n
  | .str s => s
  | .arr _ => "<list repr>"
  | .obj _ => "<dict repr>"

/-- Python type name of a parsed JSON value, used in the detail text of the
`AttributeError` raised by `data.get(...)` when `data` is not a dict. -/
def pyTypeName : JsonValue → String
  | .null => "NoneType"
  | .bool _ => "bool"
  | .num _ => "int"
  | .str _ => "str"
  | .arr _ => "list"
  | .obj _ => "dict"

/-- Detail string of the `AttributeError` raised by `data.get` on a non-dict
value (the exact Python wording is abbreviated; only its presence matters). -/
def attrErrDetail (v : JsonValue) : String :=
  "AttributeError: " ++ pyTypeName v ++ " object has no attribute get"

/-- The fields of the script's `tcg_config` dictionary (configuration plus
internal runtime state). -/
structure TcgConfig where
  server_host : String
  server_port : Nat
  source_name : String
  time_mode : String
  show_frame : Bool
  fps : Nat
  show_date : Bool
  show_utc : Bool
  pre_text : String
  post_text : String
  keep_updated : Bool
  debug : Bool
  is_source_active_in_pgm : Bool
  is_config_synced_with_server : Bool
  current_error_message : Option String
  last_displayed_text : String
deriving DecidableEq

/-- The `timer_states` dictionary: a map from timer (callback) name to its
recorded armed state, with `.get(name, False)` semantics. -/
abbrev TimerStates := String → Bool

/-- The OBS host environment as observed by the script: whether
`obs_get_source_by_name` finds a source of a given name, and whether some
scene item for that name is visible. -/
structure ObsWorld where
  sourceExists : String → Bool
  visibleInScene : String → Bool

/-- A call made by the script into the OBS host API (effect trace). -/
inductive HostCall where
  | timerAdd (name : String) (intervalMs : Nat)
  | timerRemove (name : String)
  | sourceWrite (name : String) (text : String)
  | httpGet (url : String)
deriving DecidableEq

/-- `tcg_get_server_url`: builds the server URL from host and port. -/
def tcg_get_server_url (c : TcgConfig) (endpoint : String) : String :=
  "http://" ++ c.server_host ++ ":" ++ toString c.server_port ++ endpoint

/-- The local `final_text` computed by `tcg_update_text_source`: the error
message substitutes for the text when it is truthy (a non-empty string). -/
def tcg_final_text (text : String) (c : TcgConfig) : String :=
  match c.current_error_message with
  | some e => if e.isEmpty then text else e
  | none => text

/-- `tcg_update_text_source`: dedup against `last_displayed_text`, look the
source up by name, and if present write the final text and record it.
Returns the updated config and the host calls made. -/
def tcg_update_text_source (w : ObsWorld) (text : String) (c : TcgConfig) :
    TcgConfig × List HostCall :=
  if tcg_final_text text c = c.last_displayed_text then (c, [])
  else if w.sourceExists c.source_name then
    ({ c with last_displayed_text := tcg_final_text text c },
     [HostCall.sourceWrite c.source_name (tcg_final_text text c)])
  else (c, [])

/-- `tcg_is_source_visible`: the source is visible iff it exists and some
scene item for it is visible. -/
def tcg_is_source_visible (w : ObsWorld) (name : String) : Bool :=
  w.sourceExists name && w.visibleInScene name

/-- `safe_timer_add`: arm a named timer only if not already recorded armed. -/
def safe_timer_add (name : String) (intervalMs : Nat) (ts : TimerStates) :
    TimerStates × List HostCall :=
  if ts name then (ts, [])
  else (fun n => if n = name then true else ts n, [HostCall.timerAdd name intervalMs])

/-- `safe_timer_remove`: disarm a named timer only if recorded armed. -/
def safe_timer_remove (name : String) (ts : TimerStates) :
    TimerStates × List HostCall :=
  if ts name then
    (fun n => if n = name then false else ts n, [HostCall.timerRemove name])
  else (ts, [])

/-- The script state the scheduler functions act on: `tcg_config` plus
`timer_states`. -/
structure PollState where
  cfg : TcgConfig
  timers : TimerStates

/-- The assignment `tcg_config["current_error_message"] = "TIMECODE SOURCE
MISSING OR HIDDEN?"` performed by the invisible branch of the poll tick. -/
def setPollError (c : TcgConfig) : TcgConfig :=
  { c with current_error_message := some "TIMECODE SOURCE MISSING OR HIDDEN?" }

/-- `tcg_poll_timecode`: one scheduler tick.  If the source is not visible,
set the error message, push an empty display update, and disarm the poll
timer; otherwise dispatch an HTTP GET for `/timecode`. -/
def tcg_poll_timecode (w : ObsWorld) (st : PollState) : PollState × List HostCall :=
  if tcg_is_source_visible w st.cfg.source_name then
    (st, [HostCall.httpGet (tcg_get_server_url st.cfg "/timecode")])
  else
    (⟨(tcg_update_text_source w "" (setPollError st.cfg)).1,
      (safe_timer_remove "tcg_poll_timecode" st.timers).1⟩,
     (tcg_update_text_source w "" (setPollError st.cfg)).2
       ++ (safe_timer_remove "tcg_poll_timecode" st.timers).2)

/-- The `try` block of `handle_response`'s success branch:
`json.loads(body)` followed by `data.get("display_text", "")` and `str(...)`.
`Except.error d` is a raised exception with detail `d` (parse failure,
`TypeError` on a `None` body, or `AttributeError` on a non-dict value). -/
def tcg_try_extract (loads : String → Except String JsonValue) :
    Option String → Except String String
  | none => .error "TypeError: the JSON object must be str, bytes or bytearray, not NoneType"
  | some b =>
    match loads b with
    | .error d => .error d
    | .ok (.obj fields) => .ok (pyStr ((fields.lookup "display_text").getD (.str "")))
    | .ok v => .error (attrErrDetail v)

/-- Python `{error or status}` in the failure f-string: the error string when
it is truthy, otherwise the formatted status (`None` when absent). -/
def pyOrStatusStr (err : Option String) (status : Option Nat) : String :=
  match err with
  | some e => if e.isEmpty then (match status with | none => "None" | some n => toString n) else e
  | none => match status with | none => "None" | some n => toString n

/-- `handle_response`: the poll's HTTP result handler.  On success, extract
`display_text` and clear the error (parse failures set a
`SERVER RESPONSE ERROR`); on failure, set a `SERVER ERROR` message.  Either
way the display sink is invoked. -/
def handle_response (w : ObsWorld) (loads : String → Except String JsonValue)
    (success : Bool) (body : Option String) (status : Option Nat)
    (err : Option String) (c : TcgConfig) : TcgConfig × List HostCall :=
  if success then
    match tcg_try_extract loads body with
    | .ok txt => tcg_update_text_source w txt { c with current_error_message := none }
    | .error d =>
        tcg_update_text_source w ""
          { c with current_error_message := some ("SERVER RESPONSE ERROR: " ++ d) }
  else
    tcg_update_text_source w ""
      { c with current_error_message := some ("SERVER ERROR: " ++ pyOrStatusStr err status) }

/-- A queued HTTP result: the callback reference plus the
`(success, body, status, error)` tuple pushed by the worker. -/
structure PendingResult where
  cb : Nat
  success : Bool
  body : Option String
  status : Option Nat
  error : Option String
deriving DecidableEq

/-- The outcome of the `urllib` attempt inside `tcg_http_get`'s worker:
success, `HTTPError` (with best-effort error body), `URLError`, or any other
exception. -/
inductive HttpAttempt where
  | ok (body : String) (status : Nat)
  | httpError (code : Nat) (reason : String) (errorBody : Option String)
  | urlError (reason : String)
  | unexpected (message : String)

/-- What the worker did: results pushed onto the shared queue, and callbacks
it invoked directly (the source never does the latter). -/
structure WorkerEffect where
  queued : List PendingResult
  direct : List PendingResult
deriving DecidableEq

/-- The worker body of `tcg_http_get` (`do_request`): every branch pushes
exactly one `(callback, args)` tuple onto `http_result_queue` and never calls
the callback directly. -/
def tcg_http_get_worker (cb : Nat) (att : HttpAttempt) : WorkerEffect :=
  match att with
  | .ok body status => ⟨[⟨cb, true, some body, some status, none⟩], []⟩
  | .httpError code reason errorBody => ⟨[⟨cb, false, errorBody, some code, some reason⟩], []⟩
  | .urlError reason => ⟨[⟨cb, false, none, none, some reason⟩], []⟩
  | .unexpected message => ⟨[⟨cb, false, none, none, some message⟩], []⟩

/-- `tcg_process_http_queue`: drain the result queue with `get_nowait` until
empty, invoking each callback in dequeue (FIFO) order.  Returns the list of
invocations in order and the remaining queue. -/
def tcg_process_http_queue : List PendingResult → List PendingResult × List PendingResult
  | [] => ([], [])
  | r :: rest =>
    ((r :: (tcg_process_http_queue rest).1), (tcg_process_http_queue rest).2)

/-- The recognized settings values read by `script_update`. -/
structure ObsSettings where
  server_host : String
  server_port : Nat
  source_name : String
  show_frame : Bool
  fps : Nat
  show_date : Bool
  show_utc : Bool
  pre_text : String
  post_text : String
  keep_updated : Bool
  debug : Bool

/-- The block of `tcg_config[...] = obs_data_get_*` assignments at the top of
`script_update`. -/
def apply_settings (s : ObsSettings) (c : TcgConfig) : TcgConfig :=
  { c with
    server_host := s.server_host
    server_port := s.server_port
    source_name := s.source_name
    show_frame := s.show_frame
    fps := s.fps
    show_date := s.show_date
    show_utc := s.show_utc
    pre_text := s.pre_text
    post_text := s.post_text
    keep_updated := s.keep_updated
    debug := s.debug }

/-- `script_update`: copy the settings into `tcg_config`, then disarm/re-arm
the poll timer and the queue-drain timer. -/
def script_update (s : ObsSettings) (st : PollState) : PollState × List HostCall :=
  let t1 := safe_timer_remove "tcg_poll_timecode" st.timers
  let t2 := safe_timer_add "tcg_poll_timecode" 1000 t1.1
  let t3 := safe_timer_remove "tcg_process_http_queue" t2.1
  let t4 := safe_timer_add "tcg_process_http_queue" 100 t3.1
  (⟨apply_settings s st.cfg, t4.1⟩, t1.2 ++ t2.2 ++ t3.2 ++ t4.2)

/-- The disarm-then-arm of the poll timer performed by
`on_reconnect_button_pressed` before it issues the synchronous poll. -/
def on_reconnect_rearm (st : PollState) : PollState × List HostCall :=
  let t1 := safe_timer_remove "tcg_poll_timecode" st.timers
  let t2 := safe_timer_add "tcg_poll_timecode" 1000 t1.1
  (⟨st.cfg, t2.1⟩, t1.2 ++ t2.2)

/-- `on_reconnect_button_pressed`: disarm then re-arm the poll timer, then
call `tcg_poll_timecode()` once, synchronously. -/
def on_reconnect_button_pressed (w : ObsWorld) (st : PollState) :
    PollState × List HostCall :=
  ((tcg_poll_timecode w (on_reconnect_rearm st).1).1,
   (on_reconnect_rearm st).2 ++ (tcg_poll_timecode w (on_reconnect_rearm st).1).2)

/-- A world where no source exists and nothing is visible. -/
def emptyWorld : ObsWorld := ⟨fun _ => false, fun _ => false⟩

/-- The initial `tcg_config` values from the source's dictionary literal. -/
def initConfig : TcgConfig :=
  { server_host := "127.0.0.1"
    server_port := 8080
    source_name := "TimecodeDisplay"
    time_mode := "24 Hour"
    show_frame := false
    fps := 30
    show_date := false
    show_utc := false
    pre_text := ""
    post_text := ""
    keep_updated := false
    debug := false
    is_source_active_in_pgm := false
    is_config_synced_with_server := false
    current_error_message := none
    last_displayed_text := "" }

/-- Timer states with both script timers armed (steady running state). -/
def bothTimersArmed : TimerStates :=
  fun n => n == "tcg_poll_timecode" || n == "tcg_process_http_queue"

/-- Timer states with no timer armed. -/
def noTimersArmed : TimerStates := fun _ => false

/-- The assignment `tcg_config["current_error_message"] = m` (with a string
value), as performed by `handle_response`. -/
def withError (m : String) (c : TcgConfig) : TcgConfig :=
  { c with current_error_message := some m }

/-- Is a host call an HTTP dispatch? -/
def isHttpGetCall : HostCall → Bool
  | .httpGet _ => true
  | _ => false

/-- Is a host call a write to a render target? -/
def isSourceWriteCall : HostCall → Bool
  | .sourceWrite _ _ => true
  | _ => false

/-- The display sink never changes the recorded error message. -/
theorem update_error_eq (w : ObsWorld) (t : String) (c : TcgConfig) :
    (tcg_update_text_source w t c).1.current_error_message = c.current_error_message := by
  unfold tcg_update_text_source
  split_ifs <;> rfl

/-- Every host call the display sink makes is a write of the final text to the
configured source. -/
theorem update_write_mem (w : ObsWorld) (t : String) (c : TcgConfig) :
    ∀ call ∈ (tcg_update_text_source w t c).2,
      call = HostCall.sourceWrite c.source_name (tcg_final_text t c) := by
  intro call hmem
  unfold tcg_update_text_source at hmem
  split_ifs at hmem
  · simp at hmem
  · simpa using hmem
  · simp at hmem

/-- The display sink's call list is empty or a single write of the final text. -/
theorem update_calls_cases (w : ObsWorld) (t : String) (c : TcgConfig) :
    (tcg_update_text_source w t c).2 = []
    ∨ (tcg_update_text_source w t c).2
        = [HostCall.sourceWrite c.source_name (tcg_final_text t c)] := by
  unfold tcg_update_text_source
  split_ifs <;> simp

/-- Disarming leaves the named timer recorded inactive. -/
theorem remove_makes_false (name : String) (ts : TimerStates) :
    (safe_timer_remove name ts).1 name = false := by
  unfold safe_timer_remove
  cases hts : ts name <;> simp [hts]

/-- Arming leaves the named timer recorded active. -/
theorem add_makes_true (name : String) (intervalMs : Nat) (ts : TimerStates) :
    (safe_timer_add name intervalMs ts).1 name = true := by
  unfold safe_timer_add
  cases hts : ts name <;> simp [hts]

/-- Disarming does not touch other timers. -/
theorem remove_preserves_other (name n : String) (ts : TimerStates) (h : n ≠ name) :
    (safe_timer_remove name ts).1 n = ts n := by
  unfold safe_timer_remove
  cases hts : ts name <;> simp [hts, h]

/-- Arming does not touch other timers. -/
theorem add_preserves_other (name n : String) (intervalMs : Nat) (ts : TimerStates)
    (h : n ≠ name) :
    (safe_timer_add name intervalMs ts).1 n = ts n := by
  unfold safe_timer_add
  cases hts : ts name <;> simp [hts, h]

/-- Disarming makes no host call or exactly one `timer_remove`. -/
theorem remove_calls_cases (name : String) (ts : TimerStates) :
    (safe_timer_remove name ts).2 = []
    ∨ (safe_timer_remove name ts).2 = [HostCall.timerRemove name] := by
  unfold safe_timer_remove
  cases hts : ts name <;> simp [hts]

/-- The drain loop pops every queued result in FIFO order and leaves the
queue empty. -/
theorem drain_all (q : List PendingResult) :
    tcg_process_http_queue q = (q, []) := by
  induction q with
  | nil => rfl
  | cons r rest ih => simp [tcg_process_http_queue, ih]

/-- C5: arming an already-armed timer and disarming an unarmed timer are
no-ops (recorded state and host calls); a genuine transition flips the
recorded state and makes exactly one underlying `timer_add`/`timer_remove`
call; and a repeated identical call right after a call is always a no-op. -/
theorem C5_timer_registry (name : String) (intervalMs : Nat) (ts : TimerStates) :
    (ts name = true → safe_timer_add name intervalMs ts = (ts, []))
    ∧ (ts name = false →
        (safe_timer_add name intervalMs ts).1 name = true
          ∧ (safe_timer_add name intervalMs ts).2 = [HostCall.timerAdd name intervalMs])
    ∧ (ts name = false → safe_timer_remove name ts = (ts, []))
    ∧ (ts name = true →
        (safe_timer_remove name ts).1 name = false
          ∧ (safe_timer_remove name ts).2 = [HostCall.timerRemove name])
    ∧ safe_timer_add name intervalMs (safe_timer_add name intervalMs ts).1
        = ((safe_timer_add name intervalMs ts).1, [])
    ∧ safe_timer_remove name (safe_timer_remove name ts).1
        = ((safe_timer_remove name ts).1, []) := by
  refine ⟨?_, ?_, ?_, ?_, ?_, ?_⟩
  · intro h; simp [safe_timer_add, h]
  · intro h; simp [safe_timer_add, h]
  · intro h; simp [safe_timer_remove, h]
  · intro h; simp [safe_timer_remove, h]
  · cases hts : ts name <;> simp [safe_timer_add, hts]
  · cases hts : ts name <;> simp [safe_timer_remove, hts]

/-- C5 witness: disarming the armed poll timer flips its state and makes one
`timer_remove` call. -/
theorem C5_witness :
    bothTimersArmed "tcg_poll_timecode" = true
    ∧ (safe_timer_remove "tcg_poll_timecode" bothTimersArmed).1 "tcg_poll_timecode" = false
    ∧ (safe_timer_remove "tcg_poll_timecode" bothTimersArmed).2
        = [HostCall.timerRemove "tcg_poll_timecode"] :=
  ⟨rfl,
   ((C5_timer_registry "tcg_poll_timecode" 1000 bothTimersArmed).2.2.2.1 rfl).1,
   ((C5_timer_registry "tcg_poll_timecode" 1000 bothTimersArmed).2.2.2.1 rfl).2⟩

/-- C7: when the target source lookup finds nothing, the display sink is a
complete no-op: state (including `last_displayed_text`) is unchanged and no
host call is made. -/
theorem C7_missing_source (w : ObsWorld) (text : String) (c : TcgConfig)
    (h : w.sourceExists c.source_name = false) :
    tcg_update_text_source w text c = (c, []) := by
  unfold tcg_update_text_source
  split_ifs with h1 h2
  · rfl
  · simp [h] at h2
  · rfl

/-- C7 witness: in a world with no sources, the sink call leaves the initial
config untouched and makes no host call. -/
theorem C7_witness :
    emptyWorld.sourceExists initConfig.source_name = false
    ∧ tcg_update_text_source emptyWorld "hello" initConfig = (initConfig, []) :=
  ⟨rfl, C7_missing_source emptyWorld "hello" initConfig rfl⟩

/-- C2: the display sink substitutes a non-empty error message for the given
text; a final string equal to `last_displayed_text` makes the call a no-op;
and any performed write records the written value as `last_displayed_text`. -/
theorem C2_display_sink (w : ObsWorld) (text : String) (c : TcgConfig) :
    (∀ e, c.current_error_message = some e → e.isEmpty = false →
        tcg_final_text text c = e)
    ∧ (tcg_final_text text c = c.last_displayed_text →
        tcg_update_text_source w text c = (c, []))
    ∧ (∀ n t, HostCall.sourceWrite n t ∈ (tcg_update_text_source w text c).2 →
        (tcg_update_text_source w text c).1.last_displayed_text = t) := by
  refine ⟨?_, ?_, ?_⟩
  · intro e he hne
    simp [tcg_final_text, he, hne]
  · intro h
    simp [tcg_update_text_source, h]
  · intro n t hmem
    unfold tcg_update_text_source at hmem ⊢
    split_ifs at hmem ⊢ with h1 h2
    · simp at hmem
    · simp at hmem
      simp [hmem.2]
    · simp at hmem

/-- C2 witness: with error `"BOOM"` recorded, the final string for the text
`"hello"` is `"BOOM"`. -/
theorem C2_witness :
    ({ initConfig with current_error_message := some "BOOM" } : TcgConfig).current_error_message
        = some "BOOM"
    ∧ ("BOOM" : String).isEmpty = false
    ∧ tcg_final_text "hello" { initConfig with current_error_message := some "BOOM" } = "BOOM" :=
  ⟨rfl, by decide,
   (C2_display_sink emptyWorld "hello"
      { initConfig with current_error_message := some "BOOM" }).1 "BOOM" rfl (by decide)⟩

/-- C8: every branch of the HTTP worker pushes exactly one result tuple
carrying the original callback onto the shared queue and invokes no callback
directly; the main-context drain then invokes exactly the queued results in
FIFO order, emptying the queue. -/
theorem C8_http_dispatch (cb : Nat) (att : HttpAttempt) (q : List PendingResult) :
    (tcg_http_get_worker cb att).queued.length = 1
    ∧ (∀ r ∈ (tcg_http_get_worker cb att).queued, r.cb = cb)
    ∧ (tcg_http_get_worker cb att).direct = []
    ∧ tcg_process_http_queue (q ++ (tcg_http_get_worker cb att).queued)
        = (q ++ (tcg_http_get_worker cb att).queued, []) := by
  refine ⟨?_, ?_, ?_, drain_all _⟩ <;> cases att <;> simp [tcg_http_get_worker]

/-- C8 witness: the single result queued for a refused connection carries the
original callback identity. -/
theorem C8_witness :
    ({ cb := 7, success := false, body := none, status := none,
       error := some "Connection refused" } : PendingResult).cb = 7 :=
  (C8_http_dispatch 7 (HttpAttempt.urlError "Connection refused") []).2.1 _
    (by simp [tcg_http_get_worker])

/-- C4: on every failed HTTP result the handler records the non-empty message
`"SERVER ERROR: <error-or-status>"` and invokes the display sink with empty
text (the handler is a total function, so no failure escapes it). -/
theorem C4_failure_branch (w : ObsWorld) (loads : String → Except String JsonValue)
    (body : Option String) (status : Option Nat) (err : Option String) (c : TcgConfig) :
    (handle_response w loads false body status err c).1.current_error_message
        = some ("SERVER ERROR: " ++ pyOrStatusStr err status)
    ∧ 0 < ("SERVER ERROR: " ++ pyOrStatusStr err status).length
    ∧ handle_response w loads false body status err c
        = tcg_update_text_source w ""
            (withError ("SERVER ERROR: " ++ pyOrStatusStr err status) c) := by
  refine ⟨?_, ?_, rfl⟩
  · rw [show handle_response w loads false body status err c
        = tcg_update_text_source w ""
            (withError ("SERVER ERROR: " ++ pyOrStatusStr err status) c) from rfl]
    rw [update_error_eq]
    rfl
  · rw [String.length_append]
    have : 0 < "SERVER ERROR: ".length := by decide
    omega

/-- C3: on a successful HTTP result whose body parses to a JSON object, the
handler clears the error and hands the (string-converted) `display_text`
field — empty when absent — to the display sink; when parsing raises, it
records `"SERVER RESPONSE ERROR: <detail>"` and hands empty text to the sink. -/
theorem C3_success_branch (w : ObsWorld) (loads : String → Except String JsonValue)
    (b : String) (status : Option Nat) (err : Option String) (c : TcgConfig) :
    (∀ fields, loads b = Except.ok (JsonValue.obj fields) →
        handle_response w loads true (some b) status err c
          = tcg_update_text_source w
              (pyStr ((fields.lookup "display_text").getD (JsonValue.str "")))
              { c with current_error_message := none }
        ∧ (handle_response w loads true (some b) status err c).1.current_error_message
            = none)
    ∧ (∀ d, loads b = Except.error d →
        handle_response w loads true (some b) status err c
          = tcg_update_text_source w ""
              { c with current_error_message := some ("SERVER RESPONSE ERROR: " ++ d) }
        ∧ (handle_response w loads true (some b) status err c).1.current_error_message
            = some ("SERVER RESPONSE ERROR: " ++ d)) := by
  constructor
  · intro fields hl
    have heq : handle_response w loads true (some b) status err c
        = tcg_update_text_source w
            (pyStr ((fields.lookup "display_text").getD (JsonValue.str "")))
            { c with current_error_message := none } := by
      simp [handle_response, tcg_try_extract, hl]
    exact ⟨heq, by rw [heq, update_error_eq]⟩
  · intro d hl
    have heq : handle_response w loads true (some b) status err c
        = tcg_update_text_source w ""
            { c with current_error_message := some ("SERVER RESPONSE ERROR: " ++ d) } := by
      simp [handle_response, tcg_try_extract, hl]
    exact ⟨heq, by rw [heq, update_error_eq]⟩

/-- A parse function for the spec's success scenario: the body `"good"`
parses to an object whose `display_text` is `"12:00:00:00"`. -/
def loadsDemo : String → Except String JsonValue := fun b =>
  if b = "good" then
    Except.ok (JsonValue.obj [("display_text", JsonValue.str "12:00:00:00")])
  else Except.error "Expecting value: line 1 column 1 (char 0)"

/-- C3 witness: the scenario body clears the error, and a non-JSON body sets
a message beginning `"SERVER RESPONSE ERROR: "`. -/
theorem C3_witness :
    loadsDemo "good"
        = Except.ok (JsonValue.obj [("display_text", JsonValue.str "12:00:00:00")])
    ∧ (handle_response emptyWorld loadsDemo true (some "good") (some 200) none
        initConfig).1.current_error_message = none
    ∧ loadsDemo "bad" = Except.error "Expecting value: line 1 column 1 (char 0)"
    ∧ (handle_response emptyWorld loadsDemo true (some "bad") (some 200) none
        initConfig).1.current_error_message
        = some ("SERVER RESPONSE ERROR: " ++ "Expecting value: line 1 column 1 (char 0)") :=
  ⟨by simp [loadsDemo],
   ((C3_success_branch emptyWorld loadsDemo "good" (some 200) none initConfig).1
      [("display_text", JsonValue.str "12:00:00:00")] (by simp [loadsDemo])).2,
   by simp [loadsDemo],
   ((C3_success_branch emptyWorld loadsDemo "bad" (some 200) none initConfig).2
      "Expecting value: line 1 column 1 (char 0)" (by simp [loadsDemo])).2⟩

/-- C10: a successful result whose body parses to a non-object JSON value
takes the except branch: the error becomes `"SERVER RESPONSE ERROR: <detail>"`
and the sink gets empty text; conversely, if the handler ends with no error
recorded, the body must have parsed to a JSON object. -/
theorem C10_nonobject_body (w : ObsWorld) (loads : String → Except String JsonValue)
    (b : String) (status : Option Nat) (err : Option String) (c : TcgConfig) :
    (∀ v, loads b = Except.ok v → (∀ fields, v ≠ JsonValue.obj fields) →
        handle_response w loads true (some b) status err c
          = tcg_update_text_source w ""
              (withError ("SERVER RESPONSE ERROR: " ++ attrErrDetail v) c)
        ∧ (handle_response w loads true (some b) status err c).1.current_error_message
            = some ("SERVER RESPONSE ERROR: " ++ attrErrDetail v))
    ∧ ((handle_response w loads true (some b) status err c).1.current_error_message = none →
        ∃ fields, loads b = Except.ok (JsonValue.obj fields)) := by
  constructor
  · intro v hl hno
    have heq : handle_response w loads true (some b) status err c
        = tcg_update_text_source w ""
            (withError ("SERVER RESPONSE ERROR: " ++ attrErrDetail v) c) := by
      cases v with
      | obj fields => exact absurd rfl (hno fields)
      | null => simp [handle_response, tcg_try_extract, hl, withError]
      | bool bv => simp [handle_response, tcg_try_extract, hl, withError]
      | num n => simp [handle_response, tcg_try_extract, hl, withError]
      | str s => simp [handle_response, tcg_try_extract, hl, withError]
      | arr xs => simp [handle_response, tcg_try_extract, hl, withError]
    exact ⟨heq, by rw [heq, update_error_eq]; rfl⟩
  · intro h
    cases hres : tcg_try_extract loads (some b) with
    | error d =>
      simp [handle_response, hres, update_error_eq] at h
    | ok txt =>
      cases hl : loads b with
      | error d => simp [tcg_try_extract, hl] at hres
      | ok v =>
        cases v with
        | obj fields => exact ⟨fields, rfl⟩
        | null => simp [tcg_try_extract, hl] at hres
        | bool bv => simp [tcg_try_extract, hl] at hres
        | num n => simp [tcg_try_extract, hl] at hres
        | str s => simp [tcg_try_extract, hl] at hres
        | arr xs => simp [tcg_try_extract, hl] at hres

/-- A parse function whose every body parses to JSON `null`. -/
def loadsNull : String → Except String JsonValue := fun _ => Except.ok JsonValue.null

/-- C10 witness: the body `"null"` parses fine but is not an object, so the
handler records a `"SERVER RESPONSE ERROR: "` message. -/
theorem C10_witness :
    loadsNull "null" = Except.ok JsonValue.null
    ∧ (handle_response emptyWorld loadsNull true (some "null") (some 200) none
        initConfig).1.current_error_message
        = some ("SERVER RESPONSE ERROR: " ++ attrErrDetail JsonValue.null) :=
  ⟨rfl,
   ((C10_nonobject_body emptyWorld loadsNull "null" (some 200) none initConfig).1
      JsonValue.null rfl (fun _ h => JsonValue.noConfusion h)).2⟩

/-- C1 counterexample: on a tick with the target invisible, the code records
`"TIMECODE SOURCE MISSING OR HIDDEN?"`, not the claimed
`"TARGET SOURCE MISSING OR HIDDEN?"`. -/
theorem C1_counterexample :
    ((tcg_poll_timecode emptyWorld ⟨initConfig, bothTimersArmed⟩).1.cfg.current_error_message
      == some "TARGET SOURCE MISSING OR HIDDEN?") = false
    ∧ ((tcg_poll_timecode emptyWorld ⟨initConfig, bothTimersArmed⟩).1.cfg.current_error_message
      == some "TIMECODE SOURCE MISSING OR HIDDEN?") = true := by
  constructor <;> decide

/-- C1 (amended): on every tick with the target source invisible, the handler
sets `current_error_message` to exactly `"TIMECODE SOURCE MISSING OR
HIDDEN?"`, pushes an empty display update (so any render write carries that
error string), disarms the poll timer, and dispatches no HTTP request. -/
theorem C1_poll_target_invisible (w : ObsWorld) (st : PollState)
    (h : tcg_is_source_visible w st.cfg.source_name = false) :
    (tcg_poll_timecode w st).1.cfg.current_error_message
        = some "TIMECODE SOURCE MISSING OR HIDDEN?"
    ∧ (tcg_poll_timecode w st).1.timers "tcg_poll_timecode" = false
    ∧ (tcg_poll_timecode w st).2.filter isHttpGetCall = []
    ∧ (tcg_poll_timecode w st).1.cfg
        = (tcg_update_text_source w "" (setPollError st.cfg)).1
    ∧ (tcg_poll_timecode w st).2.filter isSourceWriteCall
        = (tcg_update_text_source w "" (setPollError st.cfg)).2
    ∧ (∀ n t, HostCall.sourceWrite n t ∈ (tcg_poll_timecode w st).2 →
        t = "TIMECODE SOURCE MISSING OR HIDDEN?") := by
  have hp : tcg_poll_timecode w st
      = (⟨(tcg_update_text_source w "" (setPollError st.cfg)).1,
          (safe_timer_remove "tcg_poll_timecode" st.timers).1⟩,
         (tcg_update_text_source w "" (setPollError st.cfg)).2
           ++ (safe_timer_remove "tcg_poll_timecode" st.timers).2) := by
    simp [tcg_poll_timecode, h]
  have hfinal : tcg_final_text "" (setPollError st.cfg)
      = "TIMECODE SOURCE MISSING OR HIDDEN?" := rfl
  refine ⟨?_, ?_, ?_, ?_, ?_, ?_⟩
  · rw [hp]
    rw [show ((⟨(tcg_update_text_source w "" (setPollError st.cfg)).1,
        (safe_timer_remove "tcg_poll_timecode" st.timers).1⟩ : PollState),
        (tcg_update_text_source w "" (setPollError st.cfg)).2
          ++ (safe_timer_remove "tcg_poll_timecode" st.timers).2).1.cfg
        = (tcg_update_text_source w "" (setPollError st.cfg)).1 from rfl]
    rw [update_error_eq]
    rfl
  · rw [hp]
    exact remove_makes_false _ _
  · rw [hp]
    rcases update_calls_cases w "" (setPollError st.cfg) with hu | hu <;>
      rcases remove_calls_cases "tcg_poll_timecode" st.timers with hr | hr <;>
      simp [hu, hr, isHttpGetCall]
  · rw [hp]
  · rw [hp]
    rcases update_calls_cases w "" (setPollError st.cfg) with hu | hu <;>
      rcases remove_calls_cases "tcg_poll_timecode" st.timers with hr | hr <;>
      simp [hu, hr, isSourceWriteCall]
  · intro n t hmem
    rw [hp] at hmem
    rcases List.mem_append.mp hmem with hm | hm
    · have := update_write_mem w "" (setPollError st.cfg) _ hm
      rw [hfinal] at this
      cases this
      rfl
    · rcases remove_calls_cases "tcg_poll_timecode" st.timers with hr | hr <;>
        rw [hr] at hm <;> simp at hm

/-- C1 witness: a world with no sources makes the target invisible; the tick
then records the `TIMECODE` error string and disarms the poll timer. -/
theorem C1_witness :
    tcg_is_source_visible emptyWorld initConfig.source_name = false
    ∧ (tcg_poll_timecode emptyWorld ⟨initConfig, bothTimersArmed⟩).1.cfg.current_error_message
        = some "TIMECODE SOURCE MISSING OR HIDDEN?"
    ∧ (tcg_poll_timecode emptyWorld ⟨initConfig, bothTimersArmed⟩).1.timers
        "tcg_poll_timecode" = false :=
  ⟨rfl,
   (C1_poll_target_invisible emptyWorld ⟨initConfig, bothTimersArmed⟩ rfl).1,
   (C1_poll_target_invisible emptyWorld ⟨initConfig, bothTimersArmed⟩ rfl).2.1⟩

/-- C6: the reconnect action leaves the poll timer armed after its
disarm-then-arm phase (from any prior timer state), changes no config in that
phase, and then consists of exactly one synchronous `tcg_poll_timecode` call
whose effects follow the re-arm; the re-arm's host calls are remove-then-add
when the timer was armed, and a single add when it was not. -/
theorem C6_manual_reconnect (w : ObsWorld) (st : PollState) :
    (on_reconnect_rearm st).1.timers "tcg_poll_timecode" = true
    ∧ (on_reconnect_rearm st).1.cfg = st.cfg
    ∧ on_reconnect_button_pressed w st
        = ((tcg_poll_timecode w (on_reconnect_rearm st).1).1,
           (on_reconnect_rearm st).2 ++ (tcg_poll_timecode w (on_reconnect_rearm st).1).2)
    ∧ (st.timers "tcg_poll_timecode" = true →
        (on_reconnect_rearm st).2
          = [HostCall.timerRemove "tcg_poll_timecode",
             HostCall.timerAdd "tcg_poll_timecode" 1000])
    ∧ (st.timers "tcg_poll_timecode" = false →
        (on_reconnect_rearm st).2 = [HostCall.timerAdd "tcg_poll_timecode" 1000]) := by
  refine ⟨?_, rfl, rfl, ?_, ?_⟩
  · simp only [on_reconnect_rearm]
    exact add_makes_true _ _ _
  · intro h
    simp [on_reconnect_rearm, safe_timer_remove, safe_timer_add, h]
  · intro h
    simp [on_reconnect_rearm, safe_timer_remove, safe_timer_add, h]

/-- C6 witness: reconnect pressed while the poll timer is disarmed re-arms it
with a single underlying `timer_add`. -/
theorem C6_witness :
    (⟨initConfig, noTimersArmed⟩ : PollState).timers "tcg_poll_timecode" = false
    ∧ (on_reconnect_rearm ⟨initConfig, noTimersArmed⟩).2
        = [HostCall.timerAdd "tcg_poll_timecode" 1000]
    ∧ (on_reconnect_rearm ⟨initConfig, noTimersArmed⟩).1.timers "tcg_poll_timecode" = true :=
  ⟨rfl,
   (C6_manual_reconnect emptyWorld ⟨initConfig, noTimersArmed⟩).2.2.2.2 rfl,
   (C6_manual_reconnect emptyWorld ⟨initConfig, noTimersArmed⟩).1⟩

/-- C9: every settings update leaves `current_error_message`,
`last_displayed_text` and `is_config_synced_with_server` unchanged, ends with
both the poll timer and the queue-drain timer armed, and (from the armed
steady state) performs disarm-then-arm host calls for both timers. -/
theorem C9_settings_update (s : ObsSettings) (st : PollState) :
    (script_update s st).1.cfg.current_error_message = st.cfg.current_error_message
    ∧ (script_update s st).1.cfg.last_displayed_text = st.cfg.last_displayed_text
    ∧ (script_update s st).1.cfg.is_config_synced_with_server
        = st.cfg.is_config_synced_with_server
    ∧ (script_update s st).1.timers "tcg_poll_timecode" = true
    ∧ (script_update s st).1.timers "tcg_process_http_queue" = true
    ∧ (st.timers "tcg_poll_timecode" = true → st.timers "tcg_process_http_queue" = true →
        (script_update s st).2
          = [HostCall.timerRemove "tcg_poll_timecode",
             HostCall.timerAdd "tcg_poll_timecode" 1000,
             HostCall.timerRemove "tcg_process_http_queue",
             HostCall.timerAdd "tcg_process_http_queue" 100]) := by
  have hne : ("tcg_poll_timecode" : String) ≠ "tcg_process_http_queue" := by decide
  have hne2 : ("tcg_process_http_queue" : String) ≠ "tcg_poll_timecode" := by decide
  refine ⟨rfl, rfl, rfl, ?_, ?_, ?_⟩
  · simp only [script_update]
    rw [add_preserves_other _ _ _ _ hne, remove_preserves_other _ _ _ hne]
    exact add_makes_true _ _ _
  · simp only [script_update]
    exact add_makes_true _ _ _
  · intro h1 h2
    simp [script_update, safe_timer_remove, safe_timer_add, h1, h2, hne, hne2]

/-- Settings carrying the source defaults, for the witness. -/
def demoSettings : ObsSettings :=
  { server_host := "127.0.0.1"
    server_port := 8080
    source_name := "TimecodeDisplay"
    show_frame := false
    fps := 30
    show_date := false
    show_utc := false
    pre_text := ""
    post_text := ""
    keep_updated := false
    debug := false }

/-- C9 witness: an update with values identical to the current configuration
still performs disarm-then-arm for both timers. -/
theorem C9_witness :
    bothTimersArmed "tcg_poll_timecode" = true
    ∧ bothTimersArmed "tcg_process_http_queue" = true
    ∧ (script_update demoSettings ⟨initConfig, bothTimersArmed⟩).2
        = [HostCall.timerRemove "tcg_poll_timecode",
           HostCall.timerAdd "tcg_poll_timecode" 1000,
           HostCall.timerRemove "tcg_process_http_queue",
           HostCall.timerAdd "tcg_process_http_queue" 100] :=
  ⟨rfl, rfl,
   (C9_settings_update demoSettings ⟨initConfig, bothTimersArmed⟩).2.2.2.2.2 rfl rfl⟩

end ObsTimecode
